import Mathlib

/-!
Verification of the reactive infrared obstacle-avoidance controller
(`ros_ir_avoidance/scripts/infrared_avoider.py`).

Shallow embedding: Python float values that flow through the decision
logic are modelled by `Fl`, an extended-rational type with the IEEE-754
comparison behaviour the code relies on (NaN compares false against
everything, infinities order as expected).  The node object
`InfraredObstacleAvoider` becomes the record `AvoiderState`; its
constructor, sensor callbacks, decision method `avoid_obstacle` and run
loop become Lean functions over that record.  Publishing is modelled by
returning the list of emitted `Twist` commands.
-/

/-- A Python float as used by the controller: NaN, the two infinities,
or a finite value (exact rational; the code performs only comparisons
and scaling by the constants 1.2 and 0.5, so no rounding is relevant). -/
inductive Fl where
  | nan : Fl
  | inf : Fl
  | ninf : Fl
  | fin : ℚ → Fl
deriving DecidableEq, Repr

/-- IEEE `<`: any comparison with NaN is false; `+inf` is below nothing;
`-inf` is below everything except itself and NaN. -/
def Fl.lt : Fl → Fl → Bool
  | .nan, _ => false
  | _, .nan => false
  | .inf, _ => false
  | _, .inf => true
  | .ninf, .ninf => false
  | .ninf, _ => true
  | _, .ninf => false
  | .fin a, .fin b => a < b

/-- IEEE `>` is the mirror of `<`. -/
def Fl.gt (a b : Fl) : Bool := Fl.lt b a

/-- IEEE unary negation. -/
def Fl.neg : Fl → Fl
  | .nan => .nan
  | .inf => .ninf
  | .ninf => .inf
  | .fin a => .fin (-a)

/-- Exact rational multiplication, written through `mkRat` so that it
evaluates by kernel reduction (`Rat.mul` itself is irreducible). -/
def qmul (a b : ℚ) : ℚ := mkRat (a.num * b.num) (a.den * b.den)

/-- `qmul` agrees with the field multiplication of `ℚ`. -/
theorem qmul_eq_mul (a b : ℚ) : qmul a b = a * b := by
  rw [qmul, Rat.mkRat_eq_divInt, Rat.divInt_eq_div]
  push_cast
  rw [← div_mul_div_comm, Rat.num_div_den, Rat.num_div_den]

/-- IEEE multiplication (infinity times zero is NaN). -/
def Fl.mul : Fl → Fl → Fl
  | .nan, _ => .nan
  | _, .nan => .nan
  | .inf, .inf => .inf
  | .inf, .ninf => .ninf
  | .ninf, .inf => .ninf
  | .ninf, .ninf => .inf
  | .inf, .fin b => if b = 0 then .nan else if 0 < b then .inf else .ninf
  | .fin a, .inf => if a = 0 then .nan else if 0 < a then .inf else .ninf
  | .ninf, .fin b => if b = 0 then .nan else if 0 < b then .ninf else .inf
  | .fin a, .ninf => if a = 0 then .nan else if 0 < a then .ninf else .inf
  | .fin a, .fin b => .fin (qmul a b)

/-- The `geometry_msgs/Twist` message, restricted to the two fields the
node ever writes (`twist.linear.x` and `twist.angular.z`). -/
structure Twist where
  linear_x : Fl
  angular_z : Fl
deriving DecidableEq, Repr

/-- `Twist()` : a freshly constructed message is all zeros. -/
def twistInit : Twist := { linear_x := .fin 0, angular_z := .fin 0 }

/-- The mutable fields of the `InfraredObstacleAvoider` node object, as
set up by `__init__`. -/
structure AvoiderState where
  obstacle_threshold : Fl
  left_dist : Fl
  front_dist : Fl
  right_dist : Fl
  linear_speed : Fl
  angular_speed : Fl
  rate_hz : Fl
deriving DecidableEq, Repr

/-- `__init__`: the threshold comes from the parameter server (any float
may arrive; no validation is performed), the three distances start at
`float('inf')`, and the speeds and loop rate are hard-coded constants
0.2, 0.5 and 10. -/
def initState (obstacle_threshold : Fl) : AvoiderState :=
  { obstacle_threshold := obstacle_threshold
    left_dist := .inf
    front_dist := .inf
    right_dist := .inf
    linear_speed := .fin (mkRat 1 5)
    angular_speed := .fin (mkRat 1 2)
    rate_hz := .fin 10 }

/-- `left_cb`: store the incoming range into `self.left_dist`. -/
def left_cb (s : AvoiderState) (range : Fl) : AvoiderState :=
  { s with left_dist := range }

/-- `front_cb`: store the incoming range into `self.front_dist`. -/
def front_cb (s : AvoiderState) (range : Fl) : AvoiderState :=
  { s with front_dist := range }

/-- `right_cb`: store the incoming range into `self.right_dist`. -/
def right_cb (s : AvoiderState) (range : Fl) : AvoiderState :=
  { s with right_dist := range }

/-- The guard of the front-obstacle branch:
`self.front_dist < self.obstacle_threshold`. -/
def frontBlocked (s : AvoiderState) : Bool :=
  Fl.lt s.front_dist s.obstacle_threshold

/-- The side-avoidance zone boundary `self.obstacle_threshold * 1.2`. -/
def sideMargin (s : AvoiderState) : Fl :=
  Fl.mul s.obstacle_threshold (.fin (mkRat 6 5))

/-- The guard of the left-nudge branch:
`self.left_dist < self.obstacle_threshold * 1.2`. -/
def leftNear (s : AvoiderState) : Bool :=
  Fl.lt s.left_dist (sideMargin s)

/-- The guard of the right-nudge branch:
`self.right_dist < self.obstacle_threshold * 1.2`. -/
def rightNear (s : AvoiderState) : Bool :=
  Fl.lt s.right_dist (sideMargin s)

/-- `avoid_obstacle`, the value of the `Twist` it publishes: if the front
is blocked, stop and turn full rate toward the side with strictly more
clearance (`left_dist > right_dist` turns left, otherwise right); if the
front is clear, drive forward, nudging right when the left side is near
(checked first), else nudging left when the right side is near. -/
def avoid_obstacle (s : AvoiderState) : Twist :=
  if frontBlocked s then
    { linear_x := .fin 0
      angular_z :=
        if Fl.gt s.left_dist s.right_dist then s.angular_speed
        else Fl.neg s.angular_speed }
  else
    if leftNear s then
      { linear_x := s.linear_speed
        angular_z := Fl.mul (Fl.neg s.angular_speed) (.fin (mkRat 1 2)) }
    else if rightNear s then
      { linear_x := s.linear_speed
        angular_z := Fl.mul s.angular_speed (.fin (mkRat 1 2)) }
    else
      { linear_x := s.linear_speed, angular_z := .fin 0 }

/-- One full call of the method `avoid_obstacle` as an effect on the
node: it reads `self`, mutates no field, and publishes exactly one
command on `/cmd_vel`. -/
def avoid_obstacle_effect (s : AvoiderState) : AvoiderState × List Twist :=
  (s, [avoid_obstacle s])

/-- External events driving the node: asynchronous sensor callbacks, one
iteration of the control loop, or a `ROSInterruptException` delivered
during the loop (shutdown is the end of the event list). -/
inductive Event where
  | updLeft : Fl → Event
  | updFront : Fl → Event
  | updRight : Fl → Event
  | tick : Event
  | interrupt : Event
deriving DecidableEq, Repr

/-- The commands published by `run`: each loop iteration publishes
`avoid_obstacle`; when the loop ends — the shutdown flag seen at the top
of the loop (end of events) or a `ROSInterruptException` (caught) — the
`finally` block publishes one freshly constructed (all-zero) `Twist`. -/
def runLoop : AvoiderState → List Event → List Twist
  | _, [] => [twistInit]
  | _, .interrupt :: _ => [twistInit]
  | s, .tick :: es => avoid_obstacle s :: runLoop s es
  | s, .updLeft v :: es => runLoop (left_cb s v) es
  | s, .updFront v :: es => runLoop (front_cb s v) es
  | s, .updRight v :: es => runLoop (right_cb s v) es

/-- The commands published by the loop body alone (the per-tick
commands, without the `finally` block's contribution). -/
def tickOutputs : AvoiderState → List Event → List Twist
  | _, [] => []
  | _, .interrupt :: _ => []
  | s, .tick :: es => avoid_obstacle s :: tickOutputs s es
  | s, .updLeft v :: es => tickOutputs (left_cb s v) es
  | s, .updFront v :: es => tickOutputs (front_cb s v) es
  | s, .updRight v :: es => tickOutputs (right_cb s v) es

/-- States the node can actually be in: the constructed state followed
by any sequence of sensor callbacks. -/
inductive Reachable : AvoiderState → Prop where
  | init : ∀ thr, Reachable (initState thr)
  | left : ∀ s v, Reachable s → Reachable (left_cb s v)
  | front : ∀ s v, Reachable s → Reachable (front_cb s v)
  | right : ∀ s v, Reachable s → Reachable (right_cb s v)

/-- Nothing is IEEE-below NaN. -/
theorem Fl.lt_nan_right (x : Fl) : Fl.lt x .nan = false := by
  cases x <;> rfl

/-- NaN is IEEE-below nothing. -/
theorem Fl.lt_nan_left (x : Fl) : Fl.lt .nan x = false := by
  cases x <;> rfl

/-- Positive infinity is IEEE-below nothing. -/
theorem Fl.lt_inf_left (x : Fl) : Fl.lt .inf x = false := by
  cases x <;> rfl

/-- IEEE `<` is irreflexive. -/
theorem Fl.lt_self (x : Fl) : Fl.lt x x = false := by
  cases x <;> simp [Fl.lt]

/-- The speed parameters are the hard-coded constants in every state the
node can reach (callbacks only touch the distance fields). -/
theorem reachable_params (s : AvoiderState) (h : Reachable s) :
    s.linear_speed = Fl.fin (mkRat 1 5) ∧ s.angular_speed = Fl.fin (mkRat 1 2) := by
  induction h with
  | init thr => exact ⟨rfl, rfl⟩
  | left s v _ ih => exact ih
  | front s v _ ih => exact ih
  | right s v _ ih => exact ih

/-- Claim C1: whenever the front reading is below the obstacle threshold,
`avoid_obstacle` halts forward motion (`linear_x = 0`) and turns at full
rate: `+angular_speed` when the left reading compares greater than the
right one, `-angular_speed` otherwise; in particular an exact left/right
tie yields the right turn `-angular_speed`. -/
theorem C1_front_blocked (s : AvoiderState) (h : frontBlocked s = true) :
    (avoid_obstacle s).linear_x = Fl.fin 0 ∧
    (avoid_obstacle s).angular_z =
      (if Fl.gt s.left_dist s.right_dist then s.angular_speed
       else Fl.neg s.angular_speed) ∧
    (s.left_dist = s.right_dist →
      (avoid_obstacle s).angular_z = Fl.neg s.angular_speed) := by
  refine ⟨by simp [avoid_obstacle, h], by simp [avoid_obstacle, h], ?_⟩
  intro htie
  simp [avoid_obstacle, h, htie, Fl.gt, Fl.lt_self]

/-- Witness for C1 at a concrete blocked-front state (spec scenario 2). -/
theorem C1_front_blocked_witness :
    (avoid_obstacle
      { obstacle_threshold := Fl.fin (mkRat 3 10), left_dist := Fl.fin 1
        front_dist := Fl.fin (mkRat 1 5), right_dist := Fl.fin (mkRat 1 2)
        linear_speed := Fl.fin (mkRat 1 5), angular_speed := Fl.fin (mkRat 1 2)
        rate_hz := Fl.fin 10 }).linear_x = Fl.fin 0 :=
  (C1_front_blocked _ (by decide)).1

/-- Claim C2: with the front clear, the robot keeps `linear_x =
linear_speed` in every branch, and the side corrections are mutually
exclusive with the left check first: a near left reading forces the
right nudge `-angular_speed * 0.5` (even if the right side is also
near), otherwise a near right reading forces the left nudge
`+angular_speed * 0.5`, otherwise `angular_z = 0`. -/
theorem C2_side_precedence (s : AvoiderState) (h : frontBlocked s = false) :
    (avoid_obstacle s).linear_x = s.linear_speed ∧
    (leftNear s = true →
      (avoid_obstacle s).angular_z =
        Fl.mul (Fl.neg s.angular_speed) (Fl.fin (mkRat 1 2))) ∧
    (leftNear s = false → rightNear s = true →
      (avoid_obstacle s).angular_z =
        Fl.mul s.angular_speed (Fl.fin (mkRat 1 2))) ∧
    (leftNear s = false → rightNear s = false →
      (avoid_obstacle s).angular_z = Fl.fin 0) := by
  cases hl : leftNear s <;> cases hr : rightNear s <;>
    simp [avoid_obstacle, h, hl, hr]

/-- Witness for C2 at a concrete state where both sides are near and the
front is clear: the left check wins. -/
theorem C2_side_precedence_witness :
    (avoid_obstacle
      { obstacle_threshold := Fl.fin (mkRat 3 10), left_dist := Fl.fin (mkRat 1 4)
        front_dist := Fl.fin 1, right_dist := Fl.fin (mkRat 1 4)
        linear_speed := Fl.fin (mkRat 1 5), angular_speed := Fl.fin (mkRat 1 2)
        rate_hz := Fl.fin 10 }).angular_z =
      Fl.mul (Fl.neg (Fl.fin (mkRat 1 2))) (Fl.fin (mkRat 1 2)) :=
  (C2_side_precedence _ (by decide)).2.1 (by decide)

/-- Claim C3: threshold comparisons are strict. A front reading exactly
equal to the threshold takes the front-clear path (`linear_x =
linear_speed`), and a left reading exactly equal to `obstacle_threshold
* 1.2` (front clear, right clear) produces no side nudge
(`angular_z = 0`). -/
theorem C3_strict_boundaries (s : AvoiderState) :
    (s.front_dist = s.obstacle_threshold →
      (avoid_obstacle s).linear_x = s.linear_speed) ∧
    (frontBlocked s = false → s.left_dist = sideMargin s →
      rightNear s = false →
      (avoid_obstacle s).angular_z = Fl.fin 0 ∧
      (avoid_obstacle s).linear_x = s.linear_speed) := by
  constructor
  · intro hfe
    have hfb : frontBlocked s = false := by
      simp [frontBlocked, hfe, Fl.lt_self]
    cases hl : leftNear s <;> cases hr : rightNear s <;>
      simp [avoid_obstacle, hfb, hl, hr]
  · intro hfb hle hr
    have hl : leftNear s = false := by
      simp [leftNear, hle, Fl.lt_self]
    simp [avoid_obstacle, hfb, hl, hr]

/-- Witness for C3: front exactly at the threshold, left exactly at the
side margin (0.3 * 1.2 = 0.36), right clear. -/
theorem C3_strict_boundaries_witness :
    (avoid_obstacle
      { obstacle_threshold := Fl.fin (mkRat 3 10), left_dist := Fl.fin (mkRat 36 100)
        front_dist := Fl.fin (mkRat 3 10), right_dist := Fl.inf
        linear_speed := Fl.fin (mkRat 1 5), angular_speed := Fl.fin (mkRat 1 2)
        rate_hz := Fl.fin 10 }).linear_x = Fl.fin (mkRat 1 5) ∧
    (avoid_obstacle
      { obstacle_threshold := Fl.fin (mkRat 3 10), left_dist := Fl.fin (mkRat 36 100)
        front_dist := Fl.fin (mkRat 3 10), right_dist := Fl.inf
        linear_speed := Fl.fin (mkRat 1 5), angular_speed := Fl.fin (mkRat 1 2)
        rate_hz := Fl.fin 10 }).angular_z = Fl.fin 0 :=
  ⟨(C3_strict_boundaries _).1 (by decide),
   ((C3_strict_boundaries _).2 (by decide) (by decide) (by decide)).1⟩

/-- Counterexample to claim C4 as stated: constructing the node with the
non-positive threshold -1 succeeds (the state is built, carrying that
threshold) and the tick loop runs, publishing a command, where the claim
requires construction to fail and the loop never to start. -/
theorem C4_counterexample :
    (initState (Fl.fin (-1))).obstacle_threshold = Fl.fin (-1) ∧
    runLoop (initState (Fl.fin (-1))) [Event.tick] =
      [{ linear_x := Fl.fin (mkRat 1 5), angular_z := Fl.fin 0 }, twistInit] := by
  decide

/-- Claim C4 as amended: construction never validates anything — it
succeeds for every threshold value (non-positive, NaN and infinite ones
included), stores it unchanged, fixes the speeds, side factor and tick
rate as hard-coded positive constants, and the tick loop starts
regardless, publishing one command per tick. -/
theorem C4_no_validation (thr : Fl) :
    (initState thr).obstacle_threshold = thr ∧
    (initState thr).linear_speed = Fl.fin (mkRat 1 5) ∧
    (initState thr).angular_speed = Fl.fin (mkRat 1 2) ∧
    (initState thr).rate_hz = Fl.fin 10 ∧
    (runLoop (initState thr) [Event.tick]).length = 2 :=
  ⟨rfl, rfl, rfl, rfl, rfl⟩

/-- Claim C5: in the initial state every reading is the sentinel
positive infinity, and `avoid_obstacle` commands full forward speed with
no turn; more generally an infinite reading on any sensor never
satisfies that sensor's avoidance guard. -/
theorem C5_unknown_default :
    (∀ thr, avoid_obstacle (initState thr) =
      { linear_x := Fl.fin (mkRat 1 5), angular_z := Fl.fin 0 }) ∧
    (∀ s, s.front_dist = Fl.inf → frontBlocked s = false) ∧
    (∀ s, s.left_dist = Fl.inf → leftNear s = false) ∧
    (∀ s, s.right_dist = Fl.inf → rightNear s = false) := by
  refine ⟨fun thr => ?_, fun s h => ?_, fun s h => ?_, fun s h => ?_⟩
  · have hfb : frontBlocked (initState thr) = false := Fl.lt_inf_left _
    have hl : leftNear (initState thr) = false := Fl.lt_inf_left _
    have hr : rightNear (initState thr) = false := Fl.lt_inf_left _
    simp only [avoid_obstacle, hfb, hl, hr, Bool.false_eq_true, if_false]
    rfl
  · simp [frontBlocked, h, Fl.lt_inf_left]
  · simp [leftNear, h, Fl.lt_inf_left]
  · simp [rightNear, h, Fl.lt_inf_left]

/-- Witness for C5: the guards at a concrete state with all readings
infinite, and the initial-state command at threshold 0.3. -/
theorem C5_unknown_default_witness :
    avoid_obstacle (initState (Fl.fin (mkRat 3 10))) =
      { linear_x := Fl.fin (mkRat 1 5), angular_z := Fl.fin 0 } ∧
    frontBlocked (initState (Fl.fin (mkRat 3 10))) = false :=
  ⟨C5_unknown_default.1 _, C5_unknown_default.2.1 _ rfl⟩

/-- Counterexample to claim C6 as stated: the left callback stores a NaN
reading as NaN (it is not clamped to infinity), and with the front
blocked the command for a NaN left reading (right turn) differs from the
command with the left reading replaced by positive infinity (left
turn). -/
theorem C6_counterexample :
    (left_cb (initState (Fl.fin (mkRat 3 10))) Fl.nan).left_dist = Fl.nan ∧
    avoid_obstacle
      { obstacle_threshold := Fl.fin (mkRat 3 10), left_dist := Fl.nan
        front_dist := Fl.fin (mkRat 1 5), right_dist := Fl.fin 1
        linear_speed := Fl.fin (mkRat 1 5), angular_speed := Fl.fin (mkRat 1 2)
        rate_hz := Fl.fin 10 } ≠
    avoid_obstacle
      { obstacle_threshold := Fl.fin (mkRat 3 10), left_dist := Fl.inf
        front_dist := Fl.fin (mkRat 1 5), right_dist := Fl.fin 1
        linear_speed := Fl.fin (mkRat 1 5), angular_speed := Fl.fin (mkRat 1 2)
        rate_hz := Fl.fin 10 } := by
  decide

/-- Claim C6 as amended: the callbacks store a NaN reading as-is, with
no clamping; `avoid_obstacle` stays total and a NaN reading never
satisfies any avoidance guard (IEEE comparisons with NaN are false), but
the resulting command need not agree with the command for an infinite
reading (a NaN left reading also fails the `left > right` tie-break that
an infinite left reading wins). -/
theorem C6_nan_unclamped :
    (∀ s, (left_cb s Fl.nan).left_dist = Fl.nan) ∧
    (∀ s, s.front_dist = Fl.nan → frontBlocked s = false) ∧
    (∀ s, s.left_dist = Fl.nan →
      leftNear s = false ∧ Fl.gt s.left_dist s.right_dist = false) ∧
    (∀ s, s.right_dist = Fl.nan → rightNear s = false) := by
  refine ⟨fun s => rfl, fun s h => ?_, fun s h => ⟨?_, ?_⟩, fun s h => ?_⟩
  · simp [frontBlocked, h, Fl.lt_nan_left]
  · simp [leftNear, h, Fl.lt_nan_left]
  · simp [Fl.gt, h, Fl.lt_nan_right]
  · simp [rightNear, h, Fl.lt_nan_left]

/-- Witness for C6 as amended, at a concrete state whose three readings
are all NaN. -/
theorem C6_nan_unclamped_witness :
    frontBlocked
      { obstacle_threshold := Fl.fin (mkRat 3 10), left_dist := Fl.nan
        front_dist := Fl.nan, right_dist := Fl.nan
        linear_speed := Fl.fin (mkRat 1 5), angular_speed := Fl.fin (mkRat 1 2)
        rate_hz := Fl.fin 10 } = false :=
  C6_nan_unclamped.2.1 _ rfl

/-- Claim C7: however the run loop ends — shutdown flag or interrupt
exception — the published sequence is exactly the per-tick commands
followed by one final all-zero command from the `finally` block. -/
theorem C7_shutdown_zero (s : AvoiderState) (es : List Event) :
    runLoop s es = tickOutputs s es ++ [twistInit] ∧
    (runLoop s es).getLast? = some twistInit ∧
    twistInit = { linear_x := Fl.fin 0, angular_z := Fl.fin 0 } := by
  have key : ∀ t : AvoiderState, ∀ l : List Event,
      runLoop t l = tickOutputs t l ++ [twistInit] := by
    intro t l
    induction l generalizing t with
    | nil => rfl
    | cons e l ih =>
      cases e <;> simp [runLoop, tickOutputs, ih]
  refine ⟨key s es, ?_, rfl⟩
  rw [key s es]
  exact List.getLast?_concat _

/-- Claim C8: `avoid_obstacle` publishes exactly one command per call,
mutates no state, the command it publishes is a function of the three
readings and the control parameters alone (two states agreeing on those
six fields get the same command), and a second call on the unchanged
state repeats the same command. -/
theorem C8_pure_per_tick (s t : AvoiderState)
    (hl : s.left_dist = t.left_dist) (hf : s.front_dist = t.front_dist)
    (hr : s.right_dist = t.right_dist)
    (ho : s.obstacle_threshold = t.obstacle_threshold)
    (hv : s.linear_speed = t.linear_speed)
    (hw : s.angular_speed = t.angular_speed) :
    avoid_obstacle s = avoid_obstacle t ∧
    (avoid_obstacle_effect s).2.length = 1 ∧
    (avoid_obstacle_effect s).1 = s ∧
    (avoid_obstacle_effect ((avoid_obstacle_effect s).1)).2 =
      (avoid_obstacle_effect s).2 := by
  refine ⟨?_, rfl, rfl, rfl⟩
  simp [avoid_obstacle, frontBlocked, leftNear, rightNear, sideMargin,
    hl, hf, hr, ho, hv, hw]

/-- Witness for C8: two concrete states that differ only in the loop
rate receive the same command. -/
theorem C8_pure_per_tick_witness :
    avoid_obstacle
      { obstacle_threshold := Fl.fin (mkRat 3 10), left_dist := Fl.fin 1
        front_dist := Fl.fin (mkRat 1 5), right_dist := Fl.fin (mkRat 1 2)
        linear_speed := Fl.fin (mkRat 1 5), angular_speed := Fl.fin (mkRat 1 2)
        rate_hz := Fl.fin 10 } =
    avoid_obstacle
      { obstacle_threshold := Fl.fin (mkRat 3 10), left_dist := Fl.fin 1
        front_dist := Fl.fin (mkRat 1 5), right_dist := Fl.fin (mkRat 1 2)
        linear_speed := Fl.fin (mkRat 1 5), angular_speed := Fl.fin (mkRat 1 2)
        rate_hz := Fl.fin 20 } :=
  (C8_pure_per_tick _ _ rfl rfl rfl rfl rfl rfl).1

/-- Claim C9: in every reachable state the command's forward speed is 0
or `linear_speed` (= 0.2) and its turn rate is one of -0.5, -0.25, 0,
0.25, 0.5 (= ±angular_speed, ±angular_speed/2, 0); a full-rate turn
occurs only with forward speed 0, and a nonzero forward speed occurs
only with a turn rate among ±0.25 and 0. -/
theorem C9_command_range (s : AvoiderState) (h : Reachable s) :
    ((avoid_obstacle s).linear_x = Fl.fin 0 ∨
     (avoid_obstacle s).linear_x = s.linear_speed) ∧
    ((avoid_obstacle s).angular_z = Fl.fin (mkRat (-1) 2) ∨
     (avoid_obstacle s).angular_z = Fl.fin (mkRat (-1) 4) ∨
     (avoid_obstacle s).angular_z = Fl.fin 0 ∨
     (avoid_obstacle s).angular_z = Fl.fin (mkRat 1 4) ∨
     (avoid_obstacle s).angular_z = Fl.fin (mkRat 1 2)) ∧
    (((avoid_obstacle s).angular_z = Fl.fin (mkRat 1 2) ∨
      (avoid_obstacle s).angular_z = Fl.fin (mkRat (-1) 2)) →
      (avoid_obstacle s).linear_x = Fl.fin 0) ∧
    ((avoid_obstacle s).linear_x ≠ Fl.fin 0 →
      ((avoid_obstacle s).angular_z = Fl.fin (mkRat (-1) 4) ∨
       (avoid_obstacle s).angular_z = Fl.fin 0 ∨
       (avoid_obstacle s).angular_z = Fl.fin (mkRat 1 4))) := by
  obtain ⟨hv, hw⟩ := reachable_params s h
  cases hfb : frontBlocked s with
  | true =>
    cases hg : Fl.gt s.left_dist s.right_dist <;>
      simp [avoid_obstacle, hfb, hg, hw] <;> decide
  | false =>
    cases hl : leftNear s with
    | true => simp [avoid_obstacle, hfb, hl, hv, hw]; decide
    | false =>
      cases hr : rightNear s <;>
        (simp [avoid_obstacle, hfb, hl, hr, hv, hw]; decide)

/-- Witness for C9 at the reachable state obtained by construction with
threshold 0.3 followed by a front reading of 0.2. -/
theorem C9_command_range_witness :
    (avoid_obstacle (front_cb (initState (Fl.fin (mkRat 3 10)))
        (Fl.fin (mkRat 1 5)))).linear_x = Fl.fin 0 ∨
    (avoid_obstacle (front_cb (initState (Fl.fin (mkRat 3 10)))
        (Fl.fin (mkRat 1 5)))).linear_x =
      (front_cb (initState (Fl.fin (mkRat 3 10)))
        (Fl.fin (mkRat 1 5))).linear_speed :=
  (C9_command_range _ (Reachable.front _ _ (Reachable.init _))).1

/-- Claim C10: each sensor callback overwrites exactly its own reading,
leaving the other two readings and every control parameter unchanged,
and `avoid_obstacle` leaves the whole state unchanged. -/
theorem C10_frame (s : AvoiderState) (v : Fl) :
    (left_cb s v).left_dist = v ∧
    (left_cb s v).front_dist = s.front_dist ∧
    (left_cb s v).right_dist = s.right_dist ∧
    (left_cb s v).obstacle_threshold = s.obstacle_threshold ∧
    (left_cb s v).linear_speed = s.linear_speed ∧
    (left_cb s v).angular_speed = s.angular_speed ∧
    (left_cb s v).rate_hz = s.rate_hz ∧
    (front_cb s v).front_dist = v ∧
    (front_cb s v).left_dist = s.left_dist ∧
    (front_cb s v).right_dist = s.right_dist ∧
    (front_cb s v).obstacle_threshold = s.obstacle_threshold ∧
    (front_cb s v).linear_speed = s.linear_speed ∧
    (front_cb s v).angular_speed = s.angular_speed ∧
    (front_cb s v).rate_hz = s.rate_hz ∧
    (right_cb s v).right_dist = v ∧
    (right_cb s v).left_dist = s.left_dist ∧
    (right_cb s v).front_dist = s.front_dist ∧
    (right_cb s v).obstacle_threshold = s.obstacle_threshold ∧
    (right_cb s v).linear_speed = s.linear_speed ∧
    (right_cb s v).angular_speed = s.angular_speed ∧
    (right_cb s v).rate_hz = s.rate_hz ∧
    (avoid_obstacle_effect s).1 = s :=
  ⟨rfl, rfl, rfl, rfl, rfl, rfl, rfl, rfl, rfl, rfl, rfl, rfl, rfl, rfl,
   rfl, rfl, rfl, rfl, rfl, rfl, rfl, rfl⟩
